import Mathlib

/-!
Verification of the Cloudflare-bypass integration layer
(`integrations/python_client.py` and `integrations/web_screenshot_capture.py`).

The two Python modules are shallowly embedded: every network interaction is
represented by an explicit oracle value passed to the function under study
(`none` / `HealthFetch.exn` standing for "an exception was raised inside the
try block"), Python dictionaries become structures whose `Option` fields model
possibly-absent keys, Python exceptions become `Except`, and the truthiness
tests the code performs (`if not result.get("success")`, `if timeout:`,
`if cookies:`) are modelled by explicit Boolean functions.
-/

namespace CloudflareBypass

/-- A cookie record, modelled as an untyped JSON object (assoc list). -/
abbrev Cookie := List (String × String)

/-- The service's `timing` dict, modelled as an untyped JSON object. -/
abbrev Timing := List (String × String)

/-- The `data` object of a successful `/bypass` response.  Each field models
the corresponding JSON key; `none` means the key is absent. -/
structure BypassData where
  screenshot : Option String := none
  finalUrl : Option String := none
  title : Option String := none
  cloudflareDetected : Option Bool := none
  cloudflareIndicator : Option String := none
  bypassSuccessful : Option Bool := none
  timing : Option Timing := none
  cookies : Option (List Cookie) := none
deriving Repr, DecidableEq

/-- The `data` object of a successful `/detect` response (also the shape the
middleware's `detect_cloudflare` returns on failure).  `none` = key absent. -/
structure DetectData where
  cloudflareDetected : Option Bool := none
  indicator : Option String := none
  pageTitle : Option String := none
  finalUrl : Option String := none
  error : Option String := none
deriving Repr, DecidableEq

/-- A parsed JSON response body from the service.  `success` is the
truthiness of the body's `success` field (an absent field is falsy);
`error` is the body's `error` field; `statusField` is the body's
`status` field (used only by `/health`). -/
structure ApiBody (α : Type) where
  success : Bool := false
  error : Option String := none
  data : α
  statusField : Option String := none
deriving Repr, DecidableEq

/-- An HTTP response from the service: `ok` is `response.ok`,
`httpStatus` is `response.status`, `body` the parsed JSON and
`text` the raw body text (`response.text()`). -/
structure SvcResponse (α : Type) where
  ok : Bool := true
  httpStatus : Nat := 200
  body : ApiBody α
  text : String := ""
deriving Repr, DecidableEq

/-- Python truthiness of an `Optional[int]`: `None` and `0` are falsy. -/
def pyTruthyInt : Option Int → Bool
  | none => false
  | some t => t != 0

/-- Python truthiness of an `Optional[str]`: `None` and `""` are falsy. -/
def pyTruthyStr : Option String → Bool
  | none => false
  | some s => s != ""

/-! ## ServiceClient (`python_client.py`) -/

/-- Errors raised by `CloudflareBypassClient`.  The Python code raises bare
`Exception`s; the constructors record which `raise` site produced the error
and the message it carried. -/
inductive ClientErr where
  /-- An exception escaping the HTTP request itself (transport failure,
  timeout, malformed JSON body). -/
  | network : ClientErr
  /-- Raised by `_request` when `response.ok` is false, carrying the body's
  `error` field or `"HTTP <status>"`. -/
  | http (msg : String) : ClientErr
  /-- Raised by an action endpoint when the body's `success` field is not
  truthy, carrying the body's `error` field or the endpoint's default. -/
  | api (msg : String) : ClientErr
  /-- Raised by `wait_for_service` after exhausting its attempts. -/
  | serviceUnavailable (attempts : Nat) : ClientErr
deriving Repr, DecidableEq

/-- `CloudflareBypassClient._request`: the oracle `resp` is the HTTP
response, `none` meaning an exception during the request or JSON parse.
Returns the parsed body when `response.ok`, otherwise raises with the
body's `error` field (default `"HTTP <status>"`). -/
def CloudflareBypassClient.request {α : Type} (resp : Option (SvcResponse α)) :
    Except ClientErr (ApiBody α) :=
  match resp with
  | none => .error .network
  | some r =>
    if r.ok then .ok r.body
    else .error (.http (r.body.error.getD ("HTTP " ++ toString r.httpStatus)))

/-- `CloudflareBypassClient.is_healthy`: true iff `_request GET /health`
succeeds and the body's `status` field equals `"healthy"`; every exception
is swallowed and yields `false`. -/
def CloudflareBypassClient.is_healthy {α : Type} (resp : Option (SvcResponse α)) : Bool :=
  match CloudflareBypassClient.request resp with
  | .ok body => body.statusField == some "healthy"
  | .error _ => false

/-- The options object `CloudflareBypassClient.bypass` sends: six keys are
always present; `timeout`, `userAgent`, `proxy` (`none` = key absent) are
added only when the corresponding argument is truthy. -/
structure ClientOptions where
  headless : Bool
  screenshot : Bool
  fullPage : Bool
  width : Int
  height : Int
  waitAfterBypass : Int
  timeout : Option Int := none
  userAgent : Option String := none
  proxy : Option String := none
deriving Repr, DecidableEq

/-- The `{url, options}` body POSTed to `/bypass` by the client. -/
structure ClientBypassRequest where
  url : String
  options : ClientOptions
deriving Repr, DecidableEq

/-- The options dict built by `CloudflareBypassClient.bypass` (lines
118-132): literal dict of the six always-present keys, then
`if timeout: ...`, `if user_agent: ...`, `if proxy: ...` — Python
truthiness tests, so `0` and `""` are treated like `None`. -/
def CloudflareBypassClient.bypass_options (timeout : Option Int)
    (headless screenshot full_page : Bool) (user_agent proxy : Option String)
    (width height wait_after_bypass : Int) : ClientOptions :=
  let base : ClientOptions :=
    { headless := headless, screenshot := screenshot, fullPage := full_page,
      width := width, height := height, waitAfterBypass := wait_after_bypass }
  let o1 := if pyTruthyInt timeout then { base with timeout := timeout } else base
  let o2 := if pyTruthyStr user_agent then { o1 with userAgent := user_agent } else o1
  if pyTruthyStr proxy then { o2 with proxy := proxy } else o2

/-- The request body `{"url": url, "options": options}` sent by
`CloudflareBypassClient.bypass`. -/
def CloudflareBypassClient.bypass_request (url : String) (timeout : Option Int)
    (headless screenshot full_page : Bool) (user_agent proxy : Option String)
    (width height wait_after_bypass : Int) : ClientBypassRequest :=
  { url := url,
    options := CloudflareBypassClient.bypass_options timeout headless screenshot
      full_page user_agent proxy width height wait_after_bypass }

/-- Outcome handling of `CloudflareBypassClient.bypass` (lines 134-139):
`_request`, then raise unless the body's `success` field is truthy, else
return the body's `data`. -/
def CloudflareBypassClient.bypass_result {α : Type} (resp : Option (SvcResponse α)) :
    Except ClientErr α :=
  match CloudflareBypassClient.request resp with
  | .error e => .error e
  | .ok body =>
    if body.success then .ok body.data
    else .error (.api (body.error.getD "Bypass failed"))

/-- Outcome handling of `CloudflareBypassClient.detect` (lines 151-156). -/
def CloudflareBypassClient.detect_result {α : Type} (resp : Option (SvcResponse α)) :
    Except ClientErr α :=
  match CloudflareBypassClient.request resp with
  | .error e => .error e
  | .ok body =>
    if body.success then .ok body.data
    else .error (.api (body.error.getD "Detection failed"))

/-- Outcome handling of `CloudflareBypassClient.screenshot` (lines 173-178). -/
def CloudflareBypassClient.screenshot_result {α : Type} (resp : Option (SvcResponse α)) :
    Except ClientErr α :=
  match CloudflareBypassClient.request resp with
  | .error e => .error e
  | .ok body =>
    if body.success then .ok body.data
    else .error (.api (body.error.getD "Screenshot failed"))

/-- Outcome handling of `CloudflareBypassClient.get_stats` (lines 182-187). -/
def CloudflareBypassClient.get_stats_result {α : Type} (resp : Option (SvcResponse α)) :
    Except ClientErr α :=
  match CloudflareBypassClient.request resp with
  | .error e => .error e
  | .ok body =>
    if body.success then .ok body.data
    else .error (.api (body.error.getD "Failed to get stats"))

/-- `CloudflareBypassClient.wait_for_service`, recursion on the remaining
attempt budget.  `responses i` is the `/health` response seen by the
`i`-th poll (0-based); `interval` is the sleep duration (kept abstract —
the Python value is a float).  Returns the outcome together with the
number of `is_healthy` polls performed and the list of sleeps executed
(the loop body sleeps after every failed poll, including the last one
before raising). -/
def CloudflareBypassClient.wait_go {β : Type} (responses : Nat → Option (SvcResponse Unit))
    (interval : β) (max_attempts i : Nat) :
    (remaining : Nat) → Except ClientErr Bool × Nat × List β
  | 0 => (.error (.serviceUnavailable max_attempts), 0, [])
  | remaining + 1 =>
    if CloudflareBypassClient.is_healthy (responses i) then (.ok true, 1, [])
    else
      let rest := CloudflareBypassClient.wait_go responses interval max_attempts (i + 1) remaining
      (rest.1, rest.2.1 + 1, interval :: rest.2.2)

/-- `CloudflareBypassClient.wait_for_service` (lines 78-85): poll
`is_healthy` up to `max_attempts` times, sleeping `interval` after each
failed poll; return `true` on the first healthy poll, raise
`serviceUnavailable` after exhausting the budget. -/
def CloudflareBypassClient.wait_for_service {β : Type}
    (responses : Nat → Option (SvcResponse Unit)) (interval : β)
    (max_attempts : Nat) : Except ClientErr Bool × Nat × List β :=
  CloudflareBypassClient.wait_go responses interval max_attempts 0 max_attempts

/-! ## CaptureOrchestrator (`web_screenshot_capture.py`) -/

/-- The configuration and mutable state of `CloudflareBypassMiddleware`:
`auto_detect`, `fallback_to_normal`, and the cached `_service_available`
tri-state (`none` = never checked). -/
structure CloudflareBypassMiddleware where
  auto_detect : Bool := true
  fallback_to_normal : Bool := true
  service_available : Option Bool := none
deriving Repr, DecidableEq

/-- Oracle for one `/health` probe by the middleware: either some exception
was raised inside the `try` block (`exn`), or a response arrived with the
given `response.ok` and parsed `status` field. -/
inductive HealthFetch where
  | exn : HealthFetch
  | resp (ok : Bool) (statusField : Option String) : HealthFetch
deriving Repr, DecidableEq

/-- Observable outcome of `is_service_available`: the returned Boolean, the
new value of the `_service_available` cache, and whether a warning was
logged. -/
structure AvailOutcome where
  ret : Bool
  cached : Option Bool
  warned : Bool
deriving Repr, DecidableEq

/-- `CloudflareBypassMiddleware.is_service_available` (lines 61-74): on an
ok response, cache and return whether the body's `status` field equals
`"healthy"`; on a non-ok response, fall through to `return False` without
touching the cache; on any exception, log a warning, cache `false`, and
return `false`. -/
def CloudflareBypassMiddleware.is_service_available
    (mw : CloudflareBypassMiddleware) (f : HealthFetch) : AvailOutcome :=
  match f with
  | .resp true s =>
    let avail := s == some "healthy"
    { ret := avail, cached := some avail, warned := false }
  | .resp false _ => { ret := false, cached := mw.service_available, warned := false }
  | .exn => { ret := false, cached := some false, warned := true }

/-- The synthetic result `detect_cloudflare` substitutes on any failure:
`{"cloudflareDetected": False, "error": "Detection failed"}`. -/
def syntheticDetectFailure : DetectData :=
  { cloudflareDetected := some false, error := some "Detection failed" }

/-- `CloudflareBypassMiddleware.detect_cloudflare` (lines 76-101): POST
`/detect`; return the body's `data` when the response is ok and the body's
`success` field is truthy, and the synthetic failure result in every other
case (exception, non-ok status, falsy `success`).  Total: never raises. -/
def CloudflareBypassMiddleware.detect_cloudflare
    (resp : Option (SvcResponse DetectData)) : DetectData :=
  match resp with
  | none => syntheticDetectFailure
  | some r => if r.ok && r.body.success then r.body.data else syntheticDetectFailure

/-- The options dict built by `CloudflareBypassMiddleware.capture`
(lines 149-155). -/
structure CaptureOptions where
  fullPage : Bool
  width : Int
  height : Int
  waitAfterBypass : Int
  screenshot : Bool
deriving Repr, DecidableEq

/-- The `{url, options}` body the middleware POSTs to `/bypass`. -/
structure BypassRequest where
  url : String
  options : CaptureOptions
deriving Repr, DecidableEq

/-- Options construction in `CloudflareBypassMiddleware.capture`:
`waitAfterBypass` is `delay * 1000` when `delay > 0`, else `3000`;
`screenshot` is always `true`. -/
def CloudflareBypassMiddleware.capture_options (full_page : Bool)
    (width height delay : Int) : CaptureOptions :=
  { fullPage := full_page, width := width, height := height,
    waitAfterBypass := if delay > 0 then delay * 1000 else 3000,
    screenshot := true }

/-- The `/bypass` request sent by `CloudflareBypassMiddleware.capture`. -/
def CloudflareBypassMiddleware.capture_request (url : String) (full_page : Bool)
    (width height delay : Int) : BypassRequest :=
  { url := url,
    options := CloudflareBypassMiddleware.capture_options full_page width height delay }

/-- The `dom_elements` placeholder in the translated result. -/
structure DomElements where
  clickable_elements : List String := []
  forms : List String := []
  scripts : List String := []
  popups : List String := []
deriving Repr, DecidableEq

/-- The `capture_config` echo in the translated result. -/
structure CaptureConfig where
  full_page : Bool
  width : Int
  height : Int
  delay : Int
deriving Repr, DecidableEq

/-- The `cloudflare_bypass` sub-object of the translated result. -/
structure CloudflareBypassInfo where
  detected : Bool
  indicator : Option String
  successful : Bool
  timing : Timing
deriving Repr, DecidableEq

/-- The web-screenshot-capture-shaped dict `capture` returns.  All keys of
the literal dict (lines 170-193) are unconditional fields; the `cookies`
key is added only conditionally (lines 196-198), so it is an `Option`
(`none` = key absent). -/
structure CaptureResult where
  screenshot : Option String
  screenshot_format : String
  network_logs : List String
  dom_elements : DomElements
  final_url : String
  capture_config : CaptureConfig
  cloudflare_bypass : CloudflareBypassInfo
  cookies : Option (List Cookie) := none
deriving Repr, DecidableEq

/-- Errors raised by `CloudflareBypassMiddleware.capture` (and, on the
fallback path, by the host capture function). -/
inductive CaptureErr where
  /-- An exception escaping the HTTP interaction itself. -/
  | network : CaptureErr
  /-- `Exception(f"Bypass service error: {error_text}")` raised when the
  response is not ok or its `success` field is not truthy. -/
  | service (text : String) : CaptureErr
  /-- An error raised by the host's normal capture function. -/
  | host (msg : String) : CaptureErr
deriving Repr, DecidableEq

/-- Response handling of `CloudflareBypassMiddleware.capture`
(lines 157-207): on an ok response whose body's `success` is truthy,
translate `data["data"]` into the host shape; otherwise raise
`Bypass service error: <response text>`; an exception during the HTTP
interaction is logged and re-raised. -/
def CloudflareBypassMiddleware.capture_handle (url : String) (full_page : Bool)
    (width height delay : Int) (resp : Option (SvcResponse BypassData)) :
    Except CaptureErr CaptureResult :=
  match resp with
  | none => .error .network
  | some r =>
    if r.ok && r.body.success then
      let d := r.body.data
      let cookies := d.cookies.getD []
      .ok { screenshot := d.screenshot
            screenshot_format := "png"
            network_logs := []
            dom_elements := {}
            final_url := d.finalUrl.getD url
            capture_config :=
              { full_page := full_page, width := width, height := height, delay := delay }
            cloudflare_bypass :=
              { detected := d.cloudflareDetected.getD false
                indicator := d.cloudflareIndicator
                successful := d.bypassSuccessful.getD false
                timing := d.timing.getD [] }
            cookies := if cookies.isEmpty then none else some cookies }
    else .error (.service r.text)

/-- `CloudflareBypassMiddleware.capture` (lines 122-207): build the
`/bypass` request, send it to the service (`svc`, with `none` modelling an
exception), and handle the response. -/
def CloudflareBypassMiddleware.capture (url : String) (full_page : Bool)
    (width height delay : Int) (svc : BypassRequest → Option (SvcResponse BypassData)) :
    Except CaptureErr CaptureResult :=
  CloudflareBypassMiddleware.capture_handle url full_page width height delay
    (svc (CloudflareBypassMiddleware.capture_request url full_page width height delay))

/-- The network environment one `capture_with_fallback` call runs in: the
`/health` probe outcome, the `/detect` response, and the `/bypass`
service as a function of the request sent. -/
structure MiddlewareEnv where
  health : HealthFetch
  detect : Option (SvcResponse DetectData)
  bypassSvc : BypassRequest → Option (SvcResponse BypassData)

/-- `CloudflareBypassMiddleware.needs_bypass` (lines 103-120): `false`
when `auto_detect` is off; `false` when `is_service_available` returns
`false`; otherwise the detection result's `cloudflareDetected` value
(absent key defaulting to `false`).  Total: never raises. -/
def CloudflareBypassMiddleware.needs_bypass (mw : CloudflareBypassMiddleware)
    (env : MiddlewareEnv) : Bool :=
  if !mw.auto_detect then false
  else if !(mw.is_service_available env.health).ret then false
  else (CloudflareBypassMiddleware.detect_cloudflare env.detect).cloudflareDetected.getD false

/-- The keyword arguments `capture_with_fallback` forwards to both capture
paths, with `capture`'s Python defaults. -/
structure Kwargs where
  full_page : Bool := false
  width : Int := 1024
  height : Int := 768
  delay : Int := 0
deriving Repr, DecidableEq

/-- Which path produced a returned result. -/
inductive Path where
  | bypass : Path
  | normal : Path
deriving Repr, DecidableEq

/-- Instrumentation of one `capture_with_fallback` call: how many times the
bypass capture and the normal capture function were invoked, and which
path's value was returned (`none` when the call raised). -/
structure FallbackTrace where
  bypassCalls : Nat
  normalCalls : Nat
  resultFrom : Option Path
deriving Repr, DecidableEq

/-- `CloudflareBypassMiddleware.capture_with_fallback` (lines 209-240):
inside a `try`, evaluate `needs_bypass` and, when it is true, return the
bypass capture's result; if the bypass capture raises and
`fallback_to_normal` is off, re-raise; otherwise fall through to exactly
one invocation of `normal_capture_func(url, **kwargs)`, whose outcome is
returned unchanged.  The returned trace records the invocations made. -/
def CloudflareBypassMiddleware.capture_with_fallback
    (mw : CloudflareBypassMiddleware) (env : MiddlewareEnv) (url : String)
    (normal_capture_func : String → Kwargs → Except CaptureErr CaptureResult)
    (kwargs : Kwargs) : Except CaptureErr CaptureResult × FallbackTrace :=
  if mw.needs_bypass env then
    match CloudflareBypassMiddleware.capture url kwargs.full_page kwargs.width
        kwargs.height kwargs.delay env.bypassSvc with
    | .ok r => (.ok r, { bypassCalls := 1, normalCalls := 0, resultFrom := some .bypass })
    | .error e =>
      if mw.fallback_to_normal then
        match normal_capture_func url kwargs with
        | .ok r => (.ok r, { bypassCalls := 1, normalCalls := 1, resultFrom := some .normal })
        | .error e2 => (.error e2, { bypassCalls := 1, normalCalls := 1, resultFrom := none })
      else (.error e, { bypassCalls := 1, normalCalls := 0, resultFrom := none })
  else
    match normal_capture_func url kwargs with
    | .ok r => (.ok r, { bypassCalls := 0, normalCalls := 1, resultFrom := some .normal })
    | .error e => (.error e, { bypassCalls := 0, normalCalls := 1, resultFrom := none })

/-! ## Theorems -/

/-- C3: `needs_bypass` never raises (it is a total Boolean function of the
middleware configuration and the network oracles; the URL enters only
through the oracles) and returns `true` exactly when all three hold:
auto-detection is enabled, `is_service_available` returns `true`, and the
detection result reports `cloudflareDetected` true.  In particular it is
`false` immediately when auto-detection is disabled or the service is
unreachable, and otherwise equals the detection result's
`cloudflareDetected` value (an absent key counting as `false`). -/
theorem needs_bypass_iff_all_three (mw : CloudflareBypassMiddleware) (env : MiddlewareEnv) :
    mw.needs_bypass env =
      (mw.auto_detect && (mw.is_service_available env.health).ret &&
        (CloudflareBypassMiddleware.detect_cloudflare env.detect).cloudflareDetected.getD false) := by
  cases hd : mw.auto_detect <;>
    cases hs : (mw.is_service_available env.health).ret <;>
      simp [CloudflareBypassMiddleware.needs_bypass, hd, hs]

/-- C8: `is_service_available` never raises (total function), returns
`true` exactly when the `/health` response is ok and its `status` field
equals `"healthy"`, and on any error — an exception inside the request
(`HealthFetch.exn`) — it logs a warning, sets the cached
`_service_available` field to `false`, and returns `false`. -/
theorem is_service_available_spec (mw : CloudflareBypassMiddleware) (f : HealthFetch) :
    ((mw.is_service_available f).ret = true ↔ f = .resp true (some "healthy")) ∧
    (f = .exn →
      mw.is_service_available f = { ret := false, cached := some false, warned := true }) ∧
    (∀ s, f = .resp true s →
      mw.is_service_available f =
        { ret := (s == some "healthy"), cached := some (s == some "healthy"),
          warned := false }) := by
  refine ⟨?_, ?_, ?_⟩
  · cases f with
    | exn => simp [CloudflareBypassMiddleware.is_service_available]
    | resp ok s =>
      cases ok <;> simp [CloudflareBypassMiddleware.is_service_available, beq_iff_eq]
  · intro h; subst h; rfl
  · intro s h; subst h; rfl

/-- C8 witness: a concrete exception during the health probe yields
`false`, caches `false`, and logs a warning. -/
theorem is_service_available_spec_witness :
    ({} : CloudflareBypassMiddleware).is_service_available .exn =
      { ret := false, cached := some false, warned := true } :=
  (is_service_available_spec {} .exn).2.1 rfl

/-- C7: `detect_cloudflare` never raises (total function): on any failure
(exception, non-ok status, or a body whose `success` field is not truthy)
it returns the synthetic `{cloudflareDetected: false, error: "Detection
failed"}` result instead of propagating, and on success it returns the
response body's `data` object. -/
theorem detect_cloudflare_degrades (r : SvcResponse DetectData)
    (hfail : r.ok = false ∨ r.body.success = false) :
    CloudflareBypassMiddleware.detect_cloudflare none = syntheticDetectFailure ∧
    CloudflareBypassMiddleware.detect_cloudflare (some r) = syntheticDetectFailure ∧
    (∀ r2 : SvcResponse DetectData, r2.ok = true → r2.body.success = true →
      CloudflareBypassMiddleware.detect_cloudflare (some r2) = r2.body.data) ∧
    syntheticDetectFailure.cloudflareDetected = some false ∧
    syntheticDetectFailure.error = some "Detection failed" := by
  refine ⟨rfl, ?_, ?_, rfl, rfl⟩
  · rcases hfail with h | h <;> simp [CloudflareBypassMiddleware.detect_cloudflare, h]
  · intro r2 h1 h2
    simp [CloudflareBypassMiddleware.detect_cloudflare, h1, h2]

/-- C7 witness: a concrete non-ok `/detect` response degrades to the
synthetic failure result. -/
theorem detect_cloudflare_degrades_witness :
    CloudflareBypassMiddleware.detect_cloudflare
        (some { ok := false, body := { data := {} } }) = syntheticDetectFailure :=
  (detect_cloudflare_degrades { ok := false, body := { data := {} } } (Or.inl rfl)).2.1

/-- C5: for every action endpoint of the client (`bypass`, `detect`,
`screenshot`, `get_stats`), an HTTP-ok response whose JSON body lacks a
truthy `success` field makes the call raise — carrying the body's `error`
field when present, else the endpoint's default message — rather than
return the body: the body's `success` field, not the HTTP status, decides
the outcome. -/
theorem client_success_field_authoritative (α : Type) (r : SvcResponse α)
    (hok : r.ok = true) (hs : r.body.success = false) :
    CloudflareBypassClient.bypass_result (some r) =
        .error (.api (r.body.error.getD "Bypass failed")) ∧
    CloudflareBypassClient.detect_result (some r) =
        .error (.api (r.body.error.getD "Detection failed")) ∧
    CloudflareBypassClient.screenshot_result (some r) =
        .error (.api (r.body.error.getD "Screenshot failed")) ∧
    CloudflareBypassClient.get_stats_result (some r) =
        .error (.api (r.body.error.getD "Failed to get stats")) := by
  simp [CloudflareBypassClient.bypass_result, CloudflareBypassClient.detect_result,
    CloudflareBypassClient.screenshot_result, CloudflareBypassClient.get_stats_result,
    CloudflareBypassClient.request, hok, hs]

/-- C5 witness: a concrete 200 response with `success: false` and
`error: "boom"` makes `bypass` raise with message `"boom"`. -/
theorem client_success_field_authoritative_witness :
    CloudflareBypassClient.bypass_result
        (some ({ body := { error := some "boom", data := () } } : SvcResponse Unit)) =
      .error (.api "boom") :=
  (client_success_field_authoritative Unit
    { body := { error := some "boom", data := () } } rfl rfl).1

/-- C9 counterexample: the claim says the `timeout` key is present in the
`/bypass` options exactly when the `timeout` argument is provided
(non-null), but with the provided, non-null argument `timeout = 0` the
code's Python truthiness test `if timeout:` omits the key. -/
theorem bypass_options_nonnull_counterexample :
    (some (0 : Int)).isSome = true ∧
    (CloudflareBypassClient.bypass_request "https://example.com" (some 0) true true true
        none none 1920 1080 3000).options.timeout.isSome = false :=
  ⟨rfl, rfl⟩

/-- C9 amended: the `/bypass` request body is `{url, options}` where the
options always contain `headless`, `screenshot`, `fullPage`, `width`,
`height`, `waitAfterBypass` taken from the (default-resolved) arguments,
and contain `timeout`, `userAgent`, `proxy` exactly when the corresponding
argument is provided and truthy in Python's sense — non-null and nonzero
for `timeout`, non-null and non-empty for `userAgent` and `proxy`. -/
theorem bypass_options_truthy_spec (url : String) (timeout : Option Int)
    (headless screenshot full_page : Bool) (user_agent proxy : Option String)
    (width height wait_after_bypass : Int) :
    (CloudflareBypassClient.bypass_request url timeout headless screenshot full_page
        user_agent proxy width height wait_after_bypass).url = url ∧
    (CloudflareBypassClient.bypass_request url timeout headless screenshot full_page
        user_agent proxy width height wait_after_bypass).options =
      { headless := headless, screenshot := screenshot, fullPage := full_page,
        width := width, height := height, waitAfterBypass := wait_after_bypass,
        timeout := if pyTruthyInt timeout then timeout else none,
        userAgent := if pyTruthyStr user_agent then user_agent else none,
        proxy := if pyTruthyStr proxy then proxy else none } := by
  refine ⟨rfl, ?_⟩
  simp only [CloudflareBypassClient.bypass_request, CloudflareBypassClient.bypass_options]
  cases h1 : pyTruthyInt timeout <;> cases h2 : pyTruthyStr user_agent <;>
    cases h3 : pyTruthyStr proxy <;> simp [h1, h2, h3]

/-- C4: on every successful middleware capture (service responds ok with a
truthy `success`), the `/bypass` request's options set `waitAfterBypass`
to `delay * 1000` when `delay > 0` and to `3000` otherwise, and the
returned dict carries every host-expected key with the fixed mapping even
when the underlying data is empty: `screenshot` from the service data,
`screenshot_format` `"png"`, empty `network_logs`, `dom_elements` with
empty sub-lists, `final_url` from the service's `finalUrl` (defaulting to
the request URL), `capture_config` echoing `full_page`/`width`/`height`/
`delay`, and `cloudflare_bypass` with `detected`, `indicator`,
`successful`, `timing` taken from the service data. -/
theorem capture_success_mapping (url : String) (full_page : Bool)
    (width height delay : Int) (svc : BypassRequest → Option (SvcResponse BypassData))
    (r : SvcResponse BypassData)
    (hsvc : svc (CloudflareBypassMiddleware.capture_request url full_page width height delay)
      = some r)
    (hok : r.ok = true) (hs : r.body.success = true) :
    (CloudflareBypassMiddleware.capture_request url full_page width height
        delay).options.waitAfterBypass = (if delay > 0 then delay * 1000 else 3000) ∧
    (CloudflareBypassMiddleware.capture_request url full_page width height
        delay).options.screenshot = true ∧
    CloudflareBypassMiddleware.capture url full_page width height delay svc =
      .ok { screenshot := r.body.data.screenshot
            screenshot_format := "png"
            network_logs := []
            dom_elements := { clickable_elements := [], forms := [], scripts := [], popups := [] }
            final_url := r.body.data.finalUrl.getD url
            capture_config :=
              { full_page := full_page, width := width, height := height, delay := delay }
            cloudflare_bypass :=
              { detected := r.body.data.cloudflareDetected.getD false
                indicator := r.body.data.cloudflareIndicator
                successful := r.body.data.bypassSuccessful.getD false
                timing := r.body.data.timing.getD [] }
            cookies := if (r.body.data.cookies.getD []).isEmpty then none
                       else some (r.body.data.cookies.getD []) } := by
  refine ⟨rfl, rfl, ?_⟩
  rw [CloudflareBypassMiddleware.capture, hsvc]
  simp [CloudflareBypassMiddleware.capture_handle, hok, hs]

/-- Service data of the specification's worked example:
`{screenshot: "QQ==", finalUrl: "https://x", cloudflareDetected: true,
bypassSuccessful: true}`. -/
def exampleBypassData : BypassData :=
  { screenshot := some "QQ==", finalUrl := some "https://x",
    cloudflareDetected := some true, bypassSuccessful := some true }

/-- The specification's worked example as a full `/bypass` response. -/
def exampleBypassResponse : SvcResponse BypassData :=
  { body := { success := true, data := exampleBypassData } }

/-- C4 witness: on the worked example the capture returns
`cloudflare_bypass.detected = true`, `cloudflare_bypass.successful = true`
and `screenshot = "QQ=="`. -/
theorem capture_success_mapping_witness :
    CloudflareBypassMiddleware.capture "https://x" false 1024 768 0
        (fun _ => some exampleBypassResponse) =
      .ok { screenshot := some "QQ=="
            screenshot_format := "png"
            network_logs := []
            dom_elements := {}
            final_url := "https://x"
            capture_config := { full_page := false, width := 1024, height := 768, delay := 0 }
            cloudflare_bypass :=
              { detected := true, indicator := none, successful := true, timing := [] }
            cookies := none } :=
  (capture_success_mapping "https://x" false 1024 768 0
    (fun _ => some exampleBypassResponse) exampleBypassResponse rfl rfl rfl).2.2

/-- C10: on every successful middleware capture, the returned dict carries
the `cookies` key exactly when the service data's `cookies` sequence
(absent key defaulting to the empty list) is non-empty; an empty or
absent cookies list leaves the key absent rather than present-but-empty,
and a non-empty one is passed through unchanged. -/
theorem capture_cookies_key_iff (url : String) (full_page : Bool)
    (width height delay : Int) (svc : BypassRequest → Option (SvcResponse BypassData))
    (r : SvcResponse BypassData) (res : CaptureResult)
    (hsvc : svc (CloudflareBypassMiddleware.capture_request url full_page width height delay)
      = some r)
    (hok : r.ok = true) (hs : r.body.success = true)
    (hres : CloudflareBypassMiddleware.capture url full_page width height delay svc = .ok res) :
    (res.cookies ≠ none ↔ r.body.data.cookies.getD [] ≠ []) ∧
    (r.body.data.cookies.getD [] = [] → res.cookies = none) ∧
    (∀ cs, r.body.data.cookies.getD [] = cs → cs ≠ [] → res.cookies = some cs) := by
  rw [CloudflareBypassMiddleware.capture, hsvc] at hres
  simp [CloudflareBypassMiddleware.capture_handle, hok, hs] at hres
  subst hres
  cases hl : r.body.data.cookies.getD [] with
  | nil => simp [hl]
  | cons c cs => simp [hl]

/-- A `/bypass` response whose data carries an explicitly empty cookies
list. -/
def emptyCookiesResponse : SvcResponse BypassData :=
  { body := { success := true, data := { cookies := some [] } } }

/-- The translated result of capturing against `emptyCookiesResponse`. -/
def emptyCookiesCaptureResult : CaptureResult :=
  { screenshot := none
    screenshot_format := "png"
    network_logs := []
    dom_elements := {}
    final_url := "https://e.test"
    capture_config := { full_page := false, width := 1024, height := 768, delay := 0 }
    cloudflare_bypass := { detected := false, indicator := none, successful := false, timing := [] }
    cookies := none }

/-- C10 witness: a service reply with `cookies: []` yields a result with
no `cookies` key. -/
theorem capture_cookies_key_iff_witness :
    CloudflareBypassMiddleware.capture "https://e.test" false 1024 768 0
        (fun _ => some emptyCookiesResponse) = .ok emptyCookiesCaptureResult ∧
    emptyCookiesCaptureResult.cookies = none :=
  ⟨rfl,
    (capture_cookies_key_iff "https://e.test" false 1024 768 0
      (fun _ => some emptyCookiesResponse) emptyCookiesResponse
      emptyCookiesCaptureResult rfl rfl rfl rfl).2.1 rfl⟩

/-- C1: every `capture_with_fallback` call invokes the normal capture
function at most once, invokes the bypass capture at most once, and when
it returns a result exactly one of the two paths produced it: a
bypass-tagged result is the bypass capture's own successful outcome with
the normal path never invoked, a normal-tagged result is
`normal_capture_func url kwargs` itself, and whenever the normal path is
invoked its outcome is returned unchanged — never retried and never
re-wrapped in bypass logic. -/
theorem capture_with_fallback_exactly_one (mw : CloudflareBypassMiddleware)
    (env : MiddlewareEnv) (url : String)
    (normal_capture_func : String → Kwargs → Except CaptureErr CaptureResult)
    (kwargs : Kwargs) :
    (mw.capture_with_fallback env url normal_capture_func kwargs).2.normalCalls ≤ 1 ∧
    (mw.capture_with_fallback env url normal_capture_func kwargs).2.bypassCalls ≤ 1 ∧
    (∀ r, (mw.capture_with_fallback env url normal_capture_func kwargs).1 = .ok r →
      (mw.capture_with_fallback env url normal_capture_func kwargs).2.resultFrom.isSome
        = true) ∧
    ((mw.capture_with_fallback env url normal_capture_func kwargs).2.resultFrom
        = some .bypass →
      (mw.capture_with_fallback env url normal_capture_func kwargs).1 =
        CloudflareBypassMiddleware.capture url kwargs.full_page kwargs.width kwargs.height
          kwargs.delay env.bypassSvc ∧
      (mw.capture_with_fallback env url normal_capture_func kwargs).2.normalCalls = 0) ∧
    ((mw.capture_with_fallback env url normal_capture_func kwargs).2.resultFrom
        = some .normal →
      (mw.capture_with_fallback env url normal_capture_func kwargs).1 =
        normal_capture_func url kwargs) ∧
    ((mw.capture_with_fallback env url normal_capture_func kwargs).2.normalCalls = 1 →
      (mw.capture_with_fallback env url normal_capture_func kwargs).1 =
        normal_capture_func url kwargs) := by
  unfold CloudflareBypassMiddleware.capture_with_fallback
  cases hnb : mw.needs_bypass env with
  | false =>
    cases hn : normal_capture_func url kwargs <;> simp [hn]
  | true =>
    cases hc : CloudflareBypassMiddleware.capture url kwargs.full_page kwargs.width
        kwargs.height kwargs.delay env.bypassSvc with
    | ok r => simp [hc]
    | error e =>
      cases hf : mw.fallback_to_normal with
      | false => simp [hc, hf]
      | true => cases hn : normal_capture_func url kwargs <;> simp [hc, hf, hn]

/-- A host-shaped capture result used as the normal capture function's
return value in fallback witnesses. -/
def sampleResult : CaptureResult :=
  { screenshot := none
    screenshot_format := "png"
    network_logs := []
    dom_elements := {}
    final_url := "https://w.test"
    capture_config := { full_page := false, width := 1024, height := 768, delay := 0 }
    cloudflare_bypass :=
      { detected := false, indicator := none, successful := false, timing := [] } }

/-- C1 witness: with the bypass service unreachable, a concrete call
returns a result, and its provenance tag is set. -/
theorem capture_with_fallback_exactly_one_witness :
    (({} : CloudflareBypassMiddleware).capture_with_fallback
        { health := .exn, detect := none, bypassSvc := fun _ => none } "https://w.test"
        (fun _ _ => .ok sampleResult) {}).2.resultFrom.isSome = true :=
  (capture_with_fallback_exactly_one {}
    { health := .exn, detect := none, bypassSvc := fun _ => none } "https://w.test"
    (fun _ _ => .ok sampleResult) {}).2.2.1 sampleResult rfl

/-- C2: when `needs_bypass` is true and the bypass capture raises some
error `e`, `capture_with_fallback` with `fallback_to_normal` enabled
returns exactly the outcome of `normal_capture_func url kwargs` (invoked
once) without raising `e`, while with `fallback_to_normal` disabled it
raises `e` itself and never invokes the normal capture function. -/
theorem capture_with_fallback_bypass_failure (mw : CloudflareBypassMiddleware)
    (env : MiddlewareEnv) (url : String)
    (normal_capture_func : String → Kwargs → Except CaptureErr CaptureResult)
    (kwargs : Kwargs) (e : CaptureErr)
    (hnb : mw.needs_bypass env = true)
    (hc : CloudflareBypassMiddleware.capture url kwargs.full_page kwargs.width kwargs.height
      kwargs.delay env.bypassSvc = .error e) :
    (mw.fallback_to_normal = true →
      (mw.capture_with_fallback env url normal_capture_func kwargs).1 =
        normal_capture_func url kwargs ∧
      (mw.capture_with_fallback env url normal_capture_func kwargs).2.normalCalls = 1) ∧
    (mw.fallback_to_normal = false →
      (mw.capture_with_fallback env url normal_capture_func kwargs).1 = .error e ∧
      (mw.capture_with_fallback env url normal_capture_func kwargs).2.normalCalls = 0) := by
  unfold CloudflareBypassMiddleware.capture_with_fallback
  constructor
  · intro hf
    cases hn : normal_capture_func url kwargs <;> simp [hnb, hc, hf, hn]
  · intro hf
    simp [hnb, hc, hf]

/-- A `/detect` response positively reporting Cloudflare. -/
def detectedResponse : SvcResponse DetectData :=
  { body := { success := true, data := { cloudflareDetected := some true } } }

/-- An environment where the service is healthy, Cloudflare is detected,
and every `/bypass` call fails with a non-ok response of body text
`"boom"`. -/
def failingBypassEnv : MiddlewareEnv :=
  { health := .resp true (some "healthy")
    detect := some detectedResponse
    bypassSvc := fun _ => some { ok := false, body := { data := {} }, text := "boom" } }

/-- C2 witness: with the service healthy, Cloudflare detected, and the
`/bypass` call failing, a concrete fallback-enabled call returns the
normal capture function's result. -/
theorem capture_with_fallback_bypass_failure_witness :
    (({} : CloudflareBypassMiddleware).capture_with_fallback failingBypassEnv
        "https://w.test" (fun _ _ => .ok sampleResult) {}).1 = .ok sampleResult :=
  ((capture_with_fallback_bypass_failure {} failingBypassEnv
    "https://w.test" (fun _ _ => .ok sampleResult) {} (.service "boom") rfl rfl).1 rfl).1

/-- Helper for C6: the poll count of `wait_go` never exceeds the remaining
attempt budget, and every recorded sleep has the fixed duration
`interval`. -/
theorem wait_go_bounds {β : Type} (responses : Nat → Option (SvcResponse Unit))
    (interval : β) (max_attempts : Nat) :
    ∀ remaining i,
      (CloudflareBypassClient.wait_go responses interval max_attempts i remaining).2.1
          ≤ remaining ∧
      (∀ s ∈ (CloudflareBypassClient.wait_go responses interval max_attempts i
          remaining).2.2, s = interval) := by
  intro remaining
  induction remaining with
  | zero => intro i; exact ⟨Nat.le_refl 0, by intro s hs; simp [CloudflareBypassClient.wait_go] at hs⟩
  | succ n ih =>
    intro i
    by_cases hh : CloudflareBypassClient.is_healthy (responses i) = true
    · constructor
      · simp [CloudflareBypassClient.wait_go, hh]
      · intro s hs
        simp [CloudflareBypassClient.wait_go, hh] at hs
    · rw [Bool.not_eq_true] at hh
      constructor
      · simpa [CloudflareBypassClient.wait_go, hh] using
          Nat.succ_le_succ (ih (i + 1)).1
      · intro s hs
        simp [CloudflareBypassClient.wait_go, hh] at hs
        rcases hs with h | h
        · exact h
        · exact (ih (i + 1)).2 s h

/-- Helper for C6: when every poll in the remaining window fails,
`wait_go` raises `serviceUnavailable` after exactly `remaining` polls,
having slept once per failed poll. -/
theorem wait_go_all_fail {β : Type} (responses : Nat → Option (SvcResponse Unit))
    (interval : β) (max_attempts : Nat) :
    ∀ remaining i,
      (∀ j, j < remaining → CloudflareBypassClient.is_healthy (responses (i + j)) = false) →
      CloudflareBypassClient.wait_go responses interval max_attempts i remaining =
        (.error (.serviceUnavailable max_attempts), remaining,
          List.replicate remaining interval) := by
  intro remaining
  induction remaining with
  | zero => intro i _; rfl
  | succ n ih =>
    intro i h
    have h0 : CloudflareBypassClient.is_healthy (responses i) = false := by
      have := h 0 (Nat.succ_pos n)
      simpa using this
    have hrest := ih (i + 1) (by
      intro j hj
      have := h (j + 1) (Nat.succ_lt_succ hj)
      have he : i + (j + 1) = i + 1 + j := by omega
      rwa [he] at this)
    simp [CloudflareBypassClient.wait_go, h0, hrest, List.replicate_succ]

/-- Helper for C6: when the first healthy poll is the one at offset `k`
inside the remaining window, `wait_go` returns `true` after exactly
`k + 1` polls. -/
theorem wait_go_first_success {β : Type} (responses : Nat → Option (SvcResponse Unit))
    (interval : β) (max_attempts : Nat) :
    ∀ k remaining i, k < remaining →
      CloudflareBypassClient.is_healthy (responses (i + k)) = true →
      (∀ m, m < k → CloudflareBypassClient.is_healthy (responses (i + m)) = false) →
      CloudflareBypassClient.wait_go responses interval max_attempts i remaining =
        (.ok true, k + 1, List.replicate k interval) := by
  intro k
  induction k with
  | zero =>
    intro remaining i hk hh _
    cases remaining with
    | zero => exact absurd hk (Nat.lt_irrefl 0)
    | succ n =>
      have hh0 : CloudflareBypassClient.is_healthy (responses i) = true := by simpa using hh
      simp [CloudflareBypassClient.wait_go, hh0]
  | succ k ih =>
    intro remaining i hk hh hm
    cases remaining with
    | zero => exact absurd hk (Nat.not_lt_zero (k + 1))
    | succ n =>
      have h0 : CloudflareBypassClient.is_healthy (responses i) = false := by
        have := hm 0 (Nat.succ_pos k)
        simpa using this
      have hh2 : CloudflareBypassClient.is_healthy (responses (i + 1 + k)) = true := by
        have he : i + (k + 1) = i + 1 + k := by omega
        rwa [he] at hh
      have hm2 : ∀ m, m < k → CloudflareBypassClient.is_healthy (responses (i + 1 + m))
          = false := by
        intro m hmlt
        have := hm (m + 1) (Nat.succ_lt_succ hmlt)
        have he : i + (m + 1) = i + 1 + m := by omega
        rwa [he] at this
      have hrest := ih n (i + 1) (Nat.lt_of_succ_lt_succ hk) hh2 hm2
      simp [CloudflareBypassClient.wait_go, h0, hrest, List.replicate_succ]

/-- C6: for every `max_attempts ≥ 1`, `wait_for_service` always terminates
(it is a total function): it polls `is_healthy` at most `max_attempts`
times with a fixed sleep duration after every failed poll, returns `true`
as soon as the first poll succeeds (after `j + 1` polls when poll `j` is
the first healthy one), and raises `serviceUnavailable` after exactly
`max_attempts` failed polls when every poll fails. -/
theorem wait_for_service_spec {β : Type} (responses : Nat → Option (SvcResponse Unit))
    (interval : β) (max_attempts : Nat) (hpos : 1 ≤ max_attempts) :
    (CloudflareBypassClient.wait_for_service responses interval max_attempts).2.1
        ≤ max_attempts ∧
    (∀ s ∈ (CloudflareBypassClient.wait_for_service responses interval max_attempts).2.2,
      s = interval) ∧
    ((∀ j, j < max_attempts → CloudflareBypassClient.is_healthy (responses j) = false) →
      CloudflareBypassClient.wait_for_service responses interval max_attempts =
        (.error (.serviceUnavailable max_attempts), max_attempts,
          List.replicate max_attempts interval)) ∧
    (∀ j, j < max_attempts → CloudflareBypassClient.is_healthy (responses j) = true →
      (∀ k, k < j → CloudflareBypassClient.is_healthy (responses k) = false) →
      CloudflareBypassClient.wait_for_service responses interval max_attempts =
        (.ok true, j + 1, List.replicate j interval)) := by
  refine ⟨(wait_go_bounds responses interval max_attempts max_attempts 0).1,
    (wait_go_bounds responses interval max_attempts max_attempts 0).2, ?_, ?_⟩
  · intro hfail
    exact wait_go_all_fail responses interval max_attempts max_attempts 0 (by
      intro j hj
      simpa using hfail j hj)
  · intro j hj hh hk
    exact wait_go_first_success responses interval max_attempts j max_attempts 0 hj
      (by simpa using hh) (by intro m hm; simpa using hk m hm)

/-- C6 witness: the specification's scenario — three attempts, health
always failing — raises `serviceUnavailable` after exactly three polls. -/
theorem wait_for_service_spec_witness :
    (1 : Nat) ≤ 3 ∧
    CloudflareBypassClient.wait_for_service (fun _ => none) (0 : Int) 3 =
      (.error (.serviceUnavailable 3), 3, [0, 0, 0]) :=
  ⟨Nat.le_of_lt (by omega),
    (wait_for_service_spec (fun _ => none) (0 : Int) 3 (by omega)).2.2.1
      (fun _ _ => rfl)⟩

end CloudflareBypass
